import Mathlib

/-!
Shallow embedding of the voice-command pipeline of `pi-assistant`:
the intent router (`services/voice_command_router.py`), the MCP server
surface it dispatches to (`mcp/server.py`) and the natural-language time
parser (`mcp/modules/personal_assistant.py`).

Python values that flow through the pipeline (JSON-ish dicts, lists,
strings, numbers, `None`) are embedded as the inductive type `Val`;
fallible Python operations (dict bracket access, `float()` conversion,
enum construction, attribute lookup) return `Except String` where the
string stands for the raised exception's text.  Python's `re` module is
embedded as a small backtracking matcher over a regex syntax tree, with
fuel for termination; every pattern of the router is transcribed node by
node from the pattern strings in `_init_patterns`.
-/

namespace SpeakDutch

/-- Embedded Python/JSON value: `None`, booleans, ints, floats (as
rationals), strings, lists and string-keyed dicts. -/
inductive Val where
  | none : Val
  | bool : Bool → Val
  | int : Int → Val
  | float : ℚ → Val
  | str : String → Val
  | list : List Val → Val
  | dict : List (String × Val) → Val

/-- Python truthiness: `None`, `False`, `0`, `0.0`, `""`, `[]`, `{}` are
falsy, everything else truthy. -/
def Val.truthy : Val → Bool
  | .none => false
  | .bool b => b
  | .int n => n != 0
  | .float q => q != 0
  | .str s => s ≠ ""
  | .list xs => !xs.isEmpty
  | .dict xs => !xs.isEmpty

/-- Lookup in an embedded dict (first binding wins, as our constructions
never repeat a key). -/
def dictGet (xs : List (String × Val)) (k : String) : Option Val :=
  match xs.find? (fun p => p.1 = k) with
  | Option.some p => Option.some p.2
  | Option.none => Option.none

/-- Python `d.get(k, default)`: raises `AttributeError` when the receiver
is not a dict. -/
def Val.get (v : Val) (k : String) (dflt : Val) : Except String Val :=
  match v with
  | .dict xs => .ok ((dictGet xs k).getD dflt)
  | _ => .error "AttributeError: object has no attribute get"

/-- Python `d[k]` bracket access: `KeyError` when the key is absent,
`TypeError` when the receiver is not a dict. -/
def Val.item (v : Val) (k : String) : Except String Val :=
  match v with
  | .dict xs =>
    match dictGet xs k with
    | Option.some w => .ok w
    | Option.none => .error ("KeyError: " ++ k)
  | _ => .error "TypeError: value is not subscriptable by string"

/-- Python `xs[i]` on a list: `IndexError` out of range, `TypeError` when
the receiver is not a list. -/
def Val.index (v : Val) (i : Nat) : Except String Val :=
  match v with
  | .list xs =>
    match xs.get? i with
    | Option.some w => .ok w
    | Option.none => .error "IndexError: list index out of range"
  | _ => .error "TypeError: value is not a list"

/-- Python `k in v` membership test as the router uses it: key membership
for a dict; other receivers raise `TypeError` (iterables other than dicts
never reach the router's membership tests). -/
def Val.hasKey (v : Val) (k : String) : Except String Bool :=
  match v with
  | .dict xs => .ok (xs.any (fun p => p.1 = k))
  | _ => .error "TypeError: argument is not iterable"

/-- Python `len` of an embedded list. -/
def Val.lenList : Val → Nat
  | .list xs => xs.length
  | _ => 0

/-- Numeric readout used for the AI confidence: Python treats bools as
numbers; anything non-numeric raises `TypeError` when compared. -/
def Val.asNum : Val → Except String ℚ
  | .bool b => .ok (if b then 1 else 0)
  | .int n => .ok (n : ℚ)
  | .float q => .ok q
  | _ => .error "TypeError: not supported between instances"

/-- Render a value inside an f-string, as `str()` does.  Floats with an
integral value print with a trailing `.0` as Python does; other fractions
are rendered num/den (an embedding simplification, no claim depends on
it). -/
def Val.pyStr : Val → String
  | .none => "None"
  | .bool b => if b then "True" else "False"
  | .int n => toString n
  | .float q => if q.den = 1 then toString q.num ++ ".0" else toString q.num ++ "/" ++ toString q.den
  | .str s => s
  | .list _ => "[...]"
  | .dict _ => "{...}"

/-! ### Characters and strings the way Python's `str` methods treat them -/

/-- Python whitespace for `\s` and `str.strip()`: space, tab, newline,
carriage return, vertical tab, form feed. -/
def pySpace (c : Char) : Bool :=
  c = ' ' || c = '\t' || c = '\n' || c = '\r' || c = Char.ofNat 11 || c = Char.ofNat 12

/-- ASCII decimal digit, Python's `\d` on ASCII text. -/
def pyDigit (c : Char) : Bool := '0' ≤ c && c ≤ '9'

/-- `str.lower()` on the ASCII range. -/
def pyLower (s : List Char) : List Char := s.map Char.toLower

/-- `str.strip()`: drop leading and trailing whitespace. -/
def pyStrip (s : List Char) : List Char :=
  ((s.dropWhile pySpace).reverse.dropWhile pySpace).reverse

/-- Does `needle` start `hay`? -/
def listPrefix : List Char → List Char → Bool
  | [], _ => true
  | _ :: _, [] => false
  | a :: as, b :: bs => a = b && listPrefix as bs

/-- Python `needle in hay` on strings: substring occurrence. -/
def listSub (needle : List Char) : List Char → Bool
  | [] => listPrefix needle []
  | c :: rest => listPrefix needle (c :: rest) || listSub needle rest

/-- `int()` on a captured digit string. -/
def digitsToNat (s : List Char) : Nat :=
  s.foldl (fun acc c => acc * 10 + (c.toNat - '0'.toNat)) 0

/-! ### A backtracking regex matcher with Python `re.search` semantics

Alternatives are tried left to right, `?`/`*`/`+` are greedy unless
flagged lazy, group `i` records the text its subexpression consumed, and
the search tries match starts left to right.  Fuel bounds the recursion;
every pattern of the router repeats only single-character classes, so a
fuel beyond twice the text length plus the pattern size is never
exhausted on the concrete inputs we evaluate. -/

/-- Regex syntax tree.  `pred` is a single-character class; literals are
`pred` on equality. -/
inductive RE where
  | eps : RE
  | pred : (Char → Bool) → RE
  | seq : RE → RE → RE
  | alt : RE → RE → RE
  | opt : RE → Bool → RE
  | star : RE → Bool → RE
  | group : Nat → RE → RE

/-- Captures: group index to captured text, most recent first. -/
abbrev Caps := List (Nat × List Char)

/-- Core matcher in continuation-passing style: `mrun fuel re s caps k`
matches `re` against a prefix of `s` and hands the rest and the updated
captures to `k`, backtracking on failure. -/
def mrun : Nat → RE → List Char → Caps → (List Char → Caps → Option Caps) → Option Caps
  | 0, _, _, _, _ => Option.none
  | _ + 1, .eps, s, caps, k => k s caps
  | _ + 1, .pred p, s, caps, k =>
    match s with
    | [] => Option.none
    | c :: rest => if p c then k rest caps else Option.none
  | fuel + 1, .seq a b, s, caps, k =>
    mrun fuel a s caps (fun s2 caps2 => mrun fuel b s2 caps2 k)
  | fuel + 1, .alt a b, s, caps, k =>
    (mrun fuel a s caps k).orElse (fun _ => mrun fuel b s caps k)
  | fuel + 1, .opt a g, s, caps, k =>
    if g then (mrun fuel a s caps k).orElse (fun _ => k s caps)
    else (k s caps).orElse (fun _ => mrun fuel a s caps k)
  | fuel + 1, .star a g, s, caps, k =>
    if g then
      (mrun fuel a s caps (fun s2 caps2 => mrun fuel (.star a g) s2 caps2 k)).orElse
        (fun _ => k s caps)
    else
      (k s caps).orElse
        (fun _ => mrun fuel a s caps (fun s2 caps2 => mrun fuel (.star a g) s2 caps2 k))
  | fuel + 1, .group i a, s, caps, k =>
    mrun fuel a s caps (fun s2 caps2 =>
      k s2 ((i, s.take (s.length - s2.length)) :: caps2))

/-- `re.search`: try a match at each start position, leftmost first;
returns the captures of the first match found. -/
def msearch (fuel : Nat) (re : RE) : List Char → Option Caps
  | [] => mrun fuel re [] [] (fun _ caps => Option.some caps)
  | c :: rest =>
    (mrun fuel re (c :: rest) [] (fun _ caps => Option.some caps)).orElse
      (fun _ => msearch fuel re rest)

/-- `match.group(i)` (0-based here; Python's group 1 is our 0). -/
def capLookup (caps : Caps) (i : Nat) : Option (List Char) :=
  match caps.find? (fun p => p.1 = i) with
  | Option.some p => Option.some p.2
  | Option.none => Option.none

/-! Regex construction helpers for transcribing the router's patterns. -/

/-- Literal character. -/
def chr (c : Char) : RE := RE.pred (fun x => x = c)

/-- Literal string. -/
def lit (s : String) : RE := s.data.foldr (fun c r => RE.seq (chr c) r) RE.eps

/-- Left-to-right alternation list, as `a|b|c` tries. -/
def alts : List RE → RE
  | [] => RE.pred (fun _ => false)
  | [r] => r
  | r :: rest => RE.alt r (alts rest)

/-- Sequence of regexes. -/
def cat : List RE → RE
  | [] => RE.eps
  | [r] => r
  | r :: rest => RE.seq r (cat rest)

/-- `\s` -/
def sp : RE := RE.pred pySpace
/-- `\s+` -/
def spP : RE := RE.seq sp (RE.star sp true)
/-- `\s*` -/
def spS : RE := RE.star sp true
/-- `\d` -/
def dig : RE := RE.pred pyDigit
/-- `\d+` -/
def digP : RE := RE.seq dig (RE.star dig true)
/-- `.` (anything but newline) -/
def dot : RE := RE.pred (fun c => c != '\n')
/-- greedy `(x)?` -/
def optG (r : RE) : RE := RE.opt r true
/-- greedy `x+` -/
def plusG (r : RE) : RE := RE.seq r (RE.star r true)
/-- lazy `x+?` -/
def plusL (r : RE) : RE := RE.seq r (RE.star r false)
/-- `\d{1,2}` -/
def dig12 : RE := RE.seq dig (optG dig)
/-- `\d{2}` -/
def dig2 : RE := RE.seq dig dig
/-- an apostrophe as a one-character string, for pattern literals -/
def apos : String := String.singleton (Char.ofNat 39)

/-! ### The router's data model -/

/-- `CommandIntent` enum of `voice_command_router.py`. -/
inductive CommandIntent where
  | shopping
  | home_automation
  | dutch_learning
  | system_control
  | camera
  | information
  | unknown
deriving DecidableEq, Repr

/-- `.value` of each enum member. -/
def CommandIntent.value : CommandIntent → String
  | .shopping => "shopping"
  | .home_automation => "home_automation"
  | .dutch_learning => "dutch_learning"
  | .system_control => "system_control"
  | .camera => "camera"
  | .information => "information"
  | .unknown => "unknown"

/-- `CommandIntent(x)` construction: `ValueError` when `x` is not one of
the enum's values. -/
def CommandIntent.ofVal : Val → Except String CommandIntent
  | .str "shopping" => .ok .shopping
  | .str "home_automation" => .ok .home_automation
  | .str "dutch_learning" => .ok .dutch_learning
  | .str "system_control" => .ok .system_control
  | .str "camera" => .ok .camera
  | .str "information" => .ok .information
  | .str "unknown" => .ok .unknown
  | _ => .error "ValueError: not a valid CommandIntent"

/-- `VoiceCommand` dataclass.  `entities` is a `Val` because the AI path
stores whatever `ai_result.get('entities', {})` returned. -/
structure VoiceCommand where
  raw_text : List Char
  intent : CommandIntent
  confidence : ℚ
  entities : Val
  agent : Option String := Option.none
  action : Option String := Option.none
  parameters : Option (List (String × Val)) := Option.none

/-- `CommandResponse` dataclass.  `message` is a `Val`: the default
branch of `_format_response` returns `result.get("message", ...)`, which
need not be a string. -/
structure CommandResponse where
  success : Bool
  message : Val
  data : Option Val := Option.none
  speak : Bool := true

/-- One entry of `self.command_history`. -/
structure HistoryEntry where
  command : List Char
  intent : String
  result : Val

/-- The router's mutable fields (`ai_service` and `mcp_server` are
modelled as explicit parameters of the functions that use them). -/
structure RouterState where
  commandPatterns : List (CommandIntent × List (RE × Nat))
  commandHistory : List HistoryEntry
  context : List (String × Val)

/-! ### `_init_patterns`: every pattern string transcribed to a syntax
tree, paired with its number of capture groups (groups are numbered from
0 here; Python's `group(1)` is our group 0). -/

/-- `(?:what(?:'s| is))` -/
def reWhatIs : RE := RE.seq (lit "what") (alts [lit (apos ++ "s"), lit " is"])

/-- `(?:find|search|look for|show me|get me)\s+(?:a|an|some)?\s*(.+?)(?:\s+(?:under|for|around|about)\s+\$?(\d+))?` -/
def reShop0 : RE := cat [alts [lit "find", lit "search", lit "look for", lit "show me", lit "get me"],
  spP, optG (alts [lit "a", lit "an", lit "some"]), spS, RE.group 0 (plusL dot),
  optG (cat [spP, alts [lit "under", lit "for", lit "around", lit "about"], spP,
    optG (chr '$'), RE.group 1 digP])]

/-- `(?:buy|purchase|order)\s+(.+)` -/
def reShop1 : RE := cat [alts [lit "buy", lit "purchase", lit "order"], spP, RE.group 0 (plusG dot)]

/-- `(?:what|show)\s+(?:are|is)?\s*(?:the)?\s*(?:price|cost|prices)\s+(?:of|for)\s+(.+)` -/
def reShop2 : RE := cat [alts [lit "what", lit "show"], spP, optG (alts [lit "are", lit "is"]),
  spS, optG (lit "the"), spS, alts [lit "price", lit "cost", lit "prices"], spP,
  alts [lit "of", lit "for"], spP, RE.group 0 (plusG dot)]

/-- `(?:compare|check)\s+prices?\s+(?:for|of)\s+(.+)` -/
def reShop3 : RE := cat [alts [lit "compare", lit "check"], spP, lit "price", optG (chr 's'),
  spP, alts [lit "for", lit "of"], spP, RE.group 0 (plusG dot)]

/-- `(?:add|put)\s+(.+)\s+(?:to|in)\s+(?:my\s+)?cart` -/
def reShop4 : RE := cat [alts [lit "add", lit "put"], spP, RE.group 0 (plusG dot), spP,
  alts [lit "to", lit "in"], spP, optG (cat [lit "my", spP]), lit "cart"]

/-- `(?:show|check|view)\s+(?:my\s+)?(?:cart|basket|shopping cart)` -/
def reShop5 : RE := cat [alts [lit "show", lit "check", lit "view"], spP,
  optG (cat [lit "my", spP]), alts [lit "cart", lit "basket", lit "shopping cart"]]

/-- `(?:turn|switch)\s+(on|off)\s+(?:the\s+)?(.+)` -/
def reHome0 : RE := cat [alts [lit "turn", lit "switch"], spP,
  RE.group 0 (alts [lit "on", lit "off"]), spP, optG (cat [lit "the", spP]),
  RE.group 1 (plusG dot)]

/-- `(?:set|change)\s+(?:the\s+)?(.+?)\s+to\s+(.+)` -/
def reHome1 : RE := cat [alts [lit "set", lit "change"], spP, optG (cat [lit "the", spP]),
  RE.group 0 (plusL dot), spP, lit "to", spP, RE.group 1 (plusG dot)]

/-- `(?:dim|brighten)\s+(?:the\s+)?(.+)` -/
def reHome2 : RE := cat [alts [lit "dim", lit "brighten"], spP, optG (cat [lit "the", spP]),
  RE.group 0 (plusG dot)]

/-- `(?:what(?:'s| is))\s+(?:the\s+)?(.+?)\s+(?:temperature|status)` -/
def reHome3 : RE := cat [reWhatIs, spP, optG (cat [lit "the", spP]), RE.group 0 (plusL dot),
  spP, alts [lit "temperature", lit "status"]]

/-- `(?:lock|unlock)\s+(?:the\s+)?(.+)` -/
def reHome4 : RE := cat [alts [lit "lock", lit "unlock"], spP, optG (cat [lit "the", spP]),
  RE.group 0 (plusG dot)]

/-- `(?:how do you say|what is|translate)\s+(.+?)\s+(?:in dutch|to dutch)` -/
def reDutch0 : RE := cat [alts [lit "how do you say", lit "what is", lit "translate"], spP,
  RE.group 0 (plusL dot), spP, alts [lit "in dutch", lit "to dutch"]]

/-- `(?:teach me|show me|tell me)\s+(?:the\s+)?dutch\s+(?:word|phrase)\s+for\s+(.+)` -/
def reDutch1 : RE := cat [alts [lit "teach me", lit "show me", lit "tell me"], spP,
  optG (cat [lit "the", spP]), lit "dutch", spP, alts [lit "word", lit "phrase"], spP,
  lit "for", spP, RE.group 0 (plusG dot)]

/-- `(?:practice|learn|study)\s+(.+)` -/
def reDutch2 : RE := cat [alts [lit "practice", lit "learn", lit "study"], spP,
  RE.group 0 (plusG dot)]

/-- `(?:save|add)\s+(?:the\s+)?(?:word|vocabulary)\s+(.+)` -/
def reDutch3 : RE := cat [alts [lit "save", lit "add"], spP, optG (cat [lit "the", spP]),
  alts [lit "word", lit "vocabulary"], spP, RE.group 0 (plusG dot)]

/-- `(?:show|view|list)\s+(?:my\s+)?vocabulary` -/
def reDutch4 : RE := cat [alts [lit "show", lit "view", lit "list"], spP,
  optG (cat [lit "my", spP]), lit "vocabulary"]

/-- `(?:what(?:'s| is)|show|list|tell me)\s+(?:on\s+)?(?:my\s+)?(?:calendar|schedule|events?)\s*(?:today|tomorrow|this week)?` -/
def reInfo0 : RE := cat [alts [reWhatIs, lit "show", lit "list", lit "tell me"], spP,
  optG (cat [lit "on", spP]), optG (cat [lit "my", spP]),
  alts [lit "calendar", lit "schedule", RE.seq (lit "event") (optG (chr 's'))], spS,
  optG (alts [lit "today", lit "tomorrow", lit "this week"])]

/-- `(?:do i have|what(?:'s| is)|any)\s+(?:any\s+)?(?:meetings?|events?|appointments?)\s+(?:today|tomorrow|this week)` -/
def reInfo1 : RE := cat [alts [lit "do i have", reWhatIs, lit "any"], spP,
  optG (cat [lit "any", spP]),
  alts [RE.seq (lit "meeting") (optG (chr 's')), RE.seq (lit "event") (optG (chr 's')),
    RE.seq (lit "appointment") (optG (chr 's'))], spP,
  alts [lit "today", lit "tomorrow", lit "this week"]]

/-- `(?:add|create|schedule|make)\s+(?:a\s+)?(?:meeting|event|appointment)\s+(.+)` -/
def reInfo2 : RE := cat [alts [lit "add", lit "create", lit "schedule", lit "make"], spP,
  optG (cat [lit "a", spP]), alts [lit "meeting", lit "event", lit "appointment"], spP,
  RE.group 0 (plusG dot)]

/-- `(?:schedule|set up|create)\s+(.+?)\s+(?:for|on|at)\s+(.+)` -/
def reInfo3 : RE := cat [alts [lit "schedule", lit "set up", lit "create"], spP,
  RE.group 0 (plusL dot), spP, alts [lit "for", lit "on", lit "at"], spP,
  RE.group 1 (plusG dot)]

/-- `(?:cancel|delete|remove)\s+(?:my\s+)?(?:meeting|event|appointment)\s+(.+)` -/
def reInfo4 : RE := cat [alts [lit "cancel", lit "delete", lit "remove"], spP,
  optG (cat [lit "my", spP]), alts [lit "meeting", lit "event", lit "appointment"], spP,
  RE.group 0 (plusG dot)]

/-- `(?:when is|what time is)\s+(?:my\s+)?(.+)` -/
def reInfo5 : RE := cat [alts [lit "when is", lit "what time is"], spP,
  optG (cat [lit "my", spP]), RE.group 0 (plusG dot)]

/-- `(?:take|capture|snap)\s+(?:a\s+)?(?:picture|photo|image)` -/
def reCam0 : RE := cat [alts [lit "take", lit "capture", lit "snap"], spP,
  optG (cat [lit "a", spP]), alts [lit "picture", lit "photo", lit "image"]]

/-- `(?:show|display)\s+(?:the\s+)?camera` -/
def reCam1 : RE := cat [alts [lit "show", lit "display"], spP, optG (cat [lit "the", spP]),
  lit "camera"]

/-- `(?:what|identify|recognize)\s+(?:is\s+)?(?:this|that)` -/
def reCam2 : RE := cat [alts [lit "what", lit "identify", lit "recognize"], spP,
  optG (cat [lit "is", spP]), alts [lit "this", lit "that"]]

/-- `(?:what(?:'s| is))\s+(?:the\s+)?(?:time|date)` -/
def reSys0 : RE := cat [reWhatIs, spP, optG (cat [lit "the", spP]), alts [lit "time", lit "date"]]

/-- `(?:what(?:'s| is))\s+(?:the\s+)?weather` -/
def reSys1 : RE := cat [reWhatIs, spP, optG (cat [lit "the", spP]), lit "weather"]

/-- `(?:system|assistant)\s+(status|info|information)` -/
def reSys2 : RE := cat [alts [lit "system", lit "assistant"], spP,
  RE.group 0 (alts [lit "status", lit "info", lit "information"])]

/-- `(?:stop|quit|exit|goodbye|bye)` -/
def reSys3 : RE := alts [lit "stop", lit "quit", lit "exit", lit "goodbye", lit "bye"]

/-- The pattern table, in the dict's insertion order (shopping, home
automation, dutch learning, information, camera, system control; each
pattern with its group count). -/
def initPatterns : List (CommandIntent × List (RE × Nat)) :=
  [(CommandIntent.shopping,
      [(reShop0, 2), (reShop1, 1), (reShop2, 1), (reShop3, 1), (reShop4, 1), (reShop5, 0)]),
   (CommandIntent.home_automation,
      [(reHome0, 2), (reHome1, 2), (reHome2, 1), (reHome3, 1), (reHome4, 1)]),
   (CommandIntent.dutch_learning,
      [(reDutch0, 1), (reDutch1, 1), (reDutch2, 1), (reDutch3, 1), (reDutch4, 0)]),
   (CommandIntent.information,
      [(reInfo0, 0), (reInfo1, 0), (reInfo2, 1), (reInfo3, 2), (reInfo4, 1), (reInfo5, 1)]),
   (CommandIntent.camera, [(reCam0, 0), (reCam1, 0), (reCam2, 0)]),
   (CommandIntent.system_control, [(reSys0, 0), (reSys1, 0), (reSys2, 1), (reSys3, 0)])]

/-- The router's state as `__init__` leaves it. -/
def initState : RouterState :=
  { commandPatterns := initPatterns, commandHistory := [], context := [] }

/-! ### `_pattern_match` -/

/-- Matcher fuel: ample for the router's patterns on any input we
evaluate (see `mrun`). -/
def reFuel : Nat := 400

/-- The fixed pattern-match confidence `0.8` (built by the constructor
so that kernel evaluation never needs `Nat.gcd`). -/
def patternConfidence : ℚ := ⟨4, 5, by norm_num, by norm_num⟩

/-- The AI-fallback threshold `0.7`. -/
def aiThreshold : ℚ := ⟨7, 10, by norm_num, by norm_num⟩

/-- `{f"group_{i}": g for i, g in enumerate(match.groups()) if g}`:
unset groups and empty captures (both falsy) are dropped. -/
def entitiesOf (caps : Caps) (n : Nat) : List (String × Val) :=
  (List.range n).filterMap (fun i =>
    match capLookup caps i with
    | Option.some g =>
      if g.isEmpty then Option.none
      else Option.some ("group_" ++ toString i, Val.str (String.mk g))
    | Option.none => Option.none)

/-- `_pattern_match`: scan every intent's patterns in table order; a hit
scores `0.8` and replaces the best only under strict `>`, so the first
hit wins.  Returns `(best_intent, best_entities, best_confidence)`. -/
def patternMatch (table : List (CommandIntent × List (RE × Nat))) (text : List Char) :
    CommandIntent × List (String × Val) × ℚ :=
  table.foldl (fun best entry =>
    entry.2.foldl (fun best p =>
      match msearch reFuel p.1 text with
      | Option.some caps =>
        if patternConfidence > best.2.2 then (entry.1, entitiesOf caps p.2, patternConfidence)
        else best
      | Option.none => best) best)
    (CommandIntent.unknown, [], 0)

example : (patternMatch initPatterns "find me a laptop under 1000 dollars".data).1
    = CommandIntent.shopping := by rfl

example : (patternMatch initPatterns "find me a laptop under 1000 dollars".data).2.1
    = [("group_0", Val.str "m")] := by rfl

example : (patternMatch initPatterns "show my cart".data).1 = CommandIntent.shopping := by rfl

example : (patternMatch initPatterns "show my cart".data).2.1 = [] := by rfl

example : (patternMatch initPatterns "zzz".data).2.2 = 0 := by rfl

/-! ### `_ai_parse` and `parse_command` -/

/-- What the chat collaborator plus `json.loads` produce, seen from
inside `_ai_parse`'s `try` block: either some step raised (network,
timeout, malformed JSON) or a parsed JSON value came back. -/
inductive AIOutcome where
  | raises : String → AIOutcome
  | value : Val → AIOutcome

/-- `_ai_parse`: the whole body sits in `try ... except: return None`,
so a raising collaborator or unparsable reply yields `None` and the
parsed JSON value comes back otherwise. -/
def aiParse : AIOutcome → Option Val
  | .raises _ => Option.none
  | .value v => Option.some v

/-- `float()` on the values that can reach it here: digit strings (the
regex captures), numbers and booleans; `None` and other types raise.
(The full `float()` grammar accepts more string shapes; only `\d+`
captures reach this call in the router.) -/
def pyFloat : Val → Except String ℚ
  | .str s =>
    if s.data ≠ [] ∧ s.data.all pyDigit then .ok ((digitsToNat s.data : Nat) : ℚ)
    else .error "ValueError: could not convert string to float"
  | .int n => .ok (n : ℚ)
  | .float q => .ok q
  | .bool b => .ok (if b then 1 else 0)
  | _ => .error "TypeError: float() argument must be a string or a real number"

/-- `_map_to_agent`: fills `agent`, `action` and `parameters` in place;
branches that the `if` chains skip leave the fields untouched.  Fallible
because it performs dict lookups on `entities` and a `float()`
conversion. -/
def mapToAgent (cmd : VoiceCommand) : Except String VoiceCommand := do
  if cmd.intent = .shopping then
    let cmd := { cmd with agent := Option.some "ecommerce" }
    let hasG0 ← cmd.entities.hasKey "group_0"
    if hasG0 then
      let product ← cmd.entities.item "group_0"
      let price ← cmd.entities.get "group_1" Val.none
      if listSub "compare".data cmd.raw_text || listSub "price".data cmd.raw_text then
        pure { cmd with action := Option.some "price_compare",
                        parameters := Option.some [("product_name", product)] }
      else if listSub "cart".data cmd.raw_text then
        let act := if listSub "show".data cmd.raw_text || listSub "view".data cmd.raw_text
          then "view_cart" else "add_to_cart"
        pure { cmd with action := Option.some act,
                        parameters := Option.some [("product", product)] }
      else
        let mp ← if price.truthy then Val.float <$> pyFloat price else pure Val.none
        pure { cmd with action := Option.some "product_search",
                        parameters := Option.some [("query", product), ("max_price", mp)] }
    else pure cmd
  else if cmd.intent = .dutch_learning then
    let cmd := { cmd with agent := Option.some "dutch_learning" }
    if listSub "translate".data cmd.raw_text || listSub "how do you say".data cmd.raw_text then
      let q ← cmd.entities.get "group_0" (Val.str "")
      pure { cmd with action := Option.some "dutch_vocabulary_search",
                      parameters := Option.some [("query", q)] }
    else if listSub "vocabulary".data cmd.raw_text then
      pure { cmd with action := Option.some "dutch_vocabulary_review",
                      parameters := Option.some [("count", Val.int 10)] }
    else pure cmd
  else if cmd.intent = .information then
    let cmd := { cmd with agent := Option.some "personal_assistant" }
    if listSub "calendar".data cmd.raw_text || listSub "schedule".data cmd.raw_text
        || listSub "events".data cmd.raw_text || listSub "meetings".data cmd.raw_text then
      if listSub "add".data cmd.raw_text || listSub "create".data cmd.raw_text
          || listSub "schedule".data cmd.raw_text then
        let eventDetails ← cmd.entities.get "group_0" (Val.str "")
        let timeDetails ← cmd.entities.get "group_1" (Val.str "tomorrow at 2pm")
        pure { cmd with action := Option.some "calendar_create_event",
                        parameters := Option.some [("title", eventDetails),
                          ("start_time", timeDetails), ("duration_minutes", Val.int 60)] }
      else
        let timeframe := if listSub "today".data cmd.raw_text then "today"
          else if listSub "tomorrow".data cmd.raw_text then "tomorrow"
          else if listSub "week".data cmd.raw_text then "week"
          else "today"
        pure { cmd with action := Option.some "calendar_list_events",
                        parameters := Option.some [("timeframe", Val.str timeframe)] }
    else pure cmd
  else if cmd.intent = .camera then
    pure { cmd with agent := Option.some "personal_assistant",
                    action := Option.some "camera_capture", parameters := Option.some [] }
  else if cmd.intent = .home_automation then
    let device ← cmd.entities.get "group_1" (Val.str "")
    let state ← cmd.entities.get "group_0" (Val.str "")
    pure { cmd with agent := Option.some "home_automation",
                    action := Option.some "control_device",
                    parameters := Option.some [("device", device), ("state", state)] }
  else pure cmd

/-- `parse_command`: lowercase and strip the text, pattern-match, consult
the AI fallback when the confidence is below `0.7`, `use_ai` holds and an
AI service is attached, then map to agent and action.  The state comes
back unchanged: the method reads `command_patterns` and writes no field.
Fallible: `CommandIntent(ai_result['intent'])`, the `>` comparison on the
reply's confidence, `ai_result['intent']` itself and `_map_to_agent` can
all raise, and nothing above `_ai_parse` catches. -/
def parseCommandAux (aiService : Option AIOutcome) (st : RouterState)
    (text : String) (useAI : Bool) : Except String VoiceCommand := do
  let t := pyLower (pyStrip text.data)
  let base := patternMatch st.commandPatterns t
  let step : CommandIntent × Val × ℚ ←
    if base.2.2 < aiThreshold ∧ useAI = true ∧ aiService.isSome then
      match aiService with
      | Option.none => pure (base.1, Val.dict base.2.1, base.2.2)
      | Option.some ai =>
        match aiParse ai with
        | Option.none => pure (base.1, Val.dict base.2.1, base.2.2)
        | Option.some aiRes =>
          if aiRes.truthy then do
            let c ← aiRes.get "confidence" (Val.int 0)
            let cq ← c.asNum
            if cq > base.2.2 then do
              let iv ← aiRes.item "intent"
              let intent ← CommandIntent.ofVal iv
              let entities ← aiRes.get "entities" (Val.dict [])
              let cv ← aiRes.item "confidence"
              let cq2 ← cv.asNum
              pure (intent, entities, cq2)
            else pure (base.1, Val.dict base.2.1, base.2.2)
          else pure (base.1, Val.dict base.2.1, base.2.2)
    else pure (base.1, Val.dict base.2.1, base.2.2)
  let cmd ← mapToAgent
    { raw_text := t, intent := step.1, confidence := step.2.2, entities := step.2.1 }
  pure cmd

/-- `parse_command` with the router's state made explicit: the method
assigns no attribute of `self`, so the state it hands back is the one it
received. -/
def parseCommand (aiService : Option AIOutcome) (st : RouterState)
    (text : String) (useAI : Bool) : Except String (VoiceCommand × RouterState) :=
  (parseCommandAux aiService st text useAI).map (fun c => (c, st))

/-! ### `_format_response` -/

/-- Python `len()`: defined on sequences and mappings, raises on
numbers and `None`. -/
def pyLen : Val → Except String Nat
  | .list xs => .ok xs.length
  | .str s => .ok s.length
  | .dict xs => .ok xs.length
  | _ => .error "TypeError: object has no len()"

/-- Python `xs[:n]` on a list; other receivers that can reach it here
raise. -/
def pySliceTo (v : Val) (n : Nat) : Except String (List Val) :=
  match v with
  | .list xs => .ok (xs.take n)
  | _ => .error "TypeError: value is not sliceable"

/-- `", ".join(...)` -/
def joinComma : List String → String
  | [] => ""
  | [s] => s
  | s :: rest => s ++ ", " ++ joinComma rest

/-- The comprehension `[f"{e['summary']} at {e['start']}" for e in ...]`:
items left to right, the first raising access short-circuits. -/
def eventParts : List Val → Except String (List String)
  | [] => .ok []
  | e :: rest => do
    let summary ← e.item "summary"
    let start ← e.item "start"
    let others ← eventParts rest
    pure ((summary.pyStr ++ " at " ++ start.pyStr) :: others)

/-- The final `return result.get("message", "Command executed successfully.")`. -/
def formatDefault (result : Val) : Except String Val :=
  result.get "message" (Val.str "Command executed successfully.")

/-- `_format_response`: the per-intent templates, with the fall-through
to `formatDefault` wherever the `if` chains return nothing.  Bracket
accesses (`product['name']`, `best['total_price']`, `word['dutch']`,
`e['summary']`, ...) raise `KeyError` when the field is absent; `.get`
accesses substitute their defaults. -/
def formatResponse (cmd : VoiceCommand) (result : Val) : Except String Val := do
  if cmd.intent = .shopping then
    if cmd.action = Option.some "product_search" then
      let products ← result.get "products" (Val.list [])
      if products.truthy then
        let product ← products.index 0
        let name ← product.item "name"
        let price ← product.item "price"
        pure (Val.str ("I found " ++ name.pyStr ++ " for $" ++ price.pyStr ++
          ". Would you like to hear more options?"))
      else pure (Val.str "I couldn't find any products matching that description.")
    else if cmd.action = Option.some "price_compare" then
      let comparisons ← result.get "comparisons" (Val.list [])
      if comparisons.truthy then
        let first ← comparisons.index 0
        let best ← result.get "best_deal" first
        let total ← best.item "total_price"
        let platform ← best.item "platform"
        pure (Val.str ("The best price is $" ++ total.pyStr ++ " on " ++ platform.pyStr ++ "."))
      else pure (Val.str "I couldn't compare prices for that product.")
    else if cmd.action = Option.some "view_cart" then
      let items ← result.get "items" (Val.list [])
      if items.truthy then
        let n ← pyLen items
        pure (Val.str ("You have " ++ toString n ++ " items in your cart."))
      else pure (Val.str "Your cart is empty.")
    else formatDefault result
  else if cmd.intent = .dutch_learning then
    if cmd.action = Option.some "dutch_vocabulary_search" then
      let results ← result.get "results" (Val.list [])
      if results.truthy then
        let word ← results.index 0
        let dutch ← word.item "dutch"
        let article ← word.get "article" (Val.str "")
        pure (Val.str ("In Dutch, that's '" ++ dutch.pyStr ++ "'. " ++ article.pyStr ++
          " " ++ dutch.pyStr ++ "."))
      else pure (Val.str "I couldn't find that in the vocabulary.")
    else formatDefault result
  else if cmd.intent = .information then
    if cmd.action = Option.some "calendar_list_events" then
      let events ← result.get "events" (Val.list [])
      let timeframe ← result.get "timeframe" (Val.str "")
      if events.truthy then
        let firstThree ← pySliceTo events 3
        let parts ← eventParts firstThree
        let eventList := joinComma parts
        let n ← pyLen events
        if n > 3 then
          pure (Val.str ("You have " ++ toString n ++ " events " ++ timeframe.pyStr ++
            ". Here are the first few: " ++ eventList))
        else
          pure (Val.str ("You have " ++ toString n ++ " event(s) " ++ timeframe.pyStr ++
            ": " ++ eventList))
      else pure (Val.str ("You have no events " ++ timeframe.pyStr ++ "."))
    else if cmd.action = Option.some "calendar_create_event" then
      let success ← result.get "success" Val.none
      if success.truthy then
        let event ← result.get "event" (Val.dict [])
        let summary ← event.get "summary" (Val.str "your event")
        pure (Val.str ("I've created the event: " ++ summary.pyStr))
      else
        let err ← result.get "error" (Val.str "unknown error")
        pure (Val.str ("Sorry, I couldn't create the event: " ++ err.pyStr))
    else formatDefault result
  else if cmd.intent = .camera then
    let success ← result.get "success" Val.none
    if success.truthy then pure (Val.str "I've taken a picture.")
    else pure (Val.str "Sorry, I couldn't take a picture.")
  else formatDefault result

/-! ### `execute_command` -/

/-- The response built by the `except` arm of `execute_command`. -/
def errorResponse (e : String) : CommandResponse :=
  { success := false, message := Val.str ("Sorry, I encountered an error: " ++ e),
    data := Option.none, speak := true }

/-- The response for a command with no (or empty) agent. -/
def rephraseResponse : CommandResponse :=
  { success := false,
    message := Val.str "I'm not sure how to handle that command. Can you rephrase?",
    data := Option.none, speak := true }

/-- `if not command.agent:` — `None` and the empty string are falsy. -/
def agentFalsy (cmd : VoiceCommand) : Bool :=
  match cmd.agent with
  | Option.none => true
  | Option.some s => s = ""

/-- `execute_command`: the dispatcher (the `mcp_server.execute_tool`
call) is a parameter returning `Except`, `.error` standing for a raised
exception.  On a missing agent the fixed rephrase response comes back
with no dispatch; a raising dispatch or a raising `_format_response` is
caught by the one `except` arm and wrapped; on full success one history
entry is appended and nothing else changes. -/
def executeCommand (dispatch : Option String → List (String × Val) → Except String Val)
    (st : RouterState) (cmd : VoiceCommand) : CommandResponse × RouterState :=
  if agentFalsy cmd then (rephraseResponse, st)
  else
    match dispatch cmd.action (cmd.parameters.getD []) with
    | .error e => (errorResponse e, st)
    | .ok result =>
      match formatResponse cmd result with
      | .error e => (errorResponse e, st)
      | .ok msg =>
        ({ success := true, message := msg, data := Option.some result, speak := true },
         { st with commandHistory := st.commandHistory ++
             [{ command := cmd.raw_text, intent := cmd.intent.value, result := result }] })

/-! ### The in-repo `MCPServer` surface (`mcp/server.py`) -/

/-- The attributes an `MCPServer` instance exposes: the methods defined
by the class and the `tools` dict set in `__init__`.  `execute_tool` is
not among them — the class's dispatch entry point is `execute_command`,
taking a `{tool, arguments}` dict. -/
def mcpServerAttrs : List String :=
  ["tools", "__init__", "_register_tools", "register_tool", "execute_command",
   "list_tools", "initialize", "cleanup", "_get_system_info", "_list_processes",
   "_list_files", "_read_file", "_gpio_control", "_camera_capture", "_play_sound",
   "_network_status", "_service_control", "_run_command"]

/-- The tool names `_register_tools` registers. -/
def mcpToolNames : List String :=
  ["system_info", "list_processes", "list_files", "read_file", "gpio_control",
   "camera_capture", "play_sound", "network_status", "service_control"]

/-- The router's `mcp_server.execute_tool(action, params)` call made
against the in-repo `MCPServer`: attribute lookup on the instance raises
`AttributeError` because no such attribute exists (the guard is an
honest membership test against the class's attribute list). -/
def mcpServerExecuteTool (_action : Option String) (_params : List (String × Val)) :
    Except String Val :=
  if mcpServerAttrs.contains "execute_tool" then .ok Val.none
  else .error "'MCPServer' object has no attribute 'execute_tool'"

/-! ### `_parse_time` and `_extract_time`
(`mcp/modules/personal_assistant.py`) -/

/-- A `datetime` instant: a day number plus time of day.  Calendar
structure below the day level is irrelevant to the claims, so days count
from an arbitrary epoch. -/
structure PyDateTime where
  days : Int
  hour : Nat
  minute : Nat
  second : Nat
  micro : Nat
deriving DecidableEq, Repr

/-- `dt + timedelta(days=n)` -/
def addDays (dt : PyDateTime) (n : Int) : PyDateTime := { dt with days := dt.days + n }

/-- `dt + timedelta(hours=h)` -/
def addHours (dt : PyDateTime) (h : Nat) : PyDateTime :=
  { dt with days := dt.days + (dt.hour + h) / 24, hour := (dt.hour + h) % 24 }

/-- `dt + timedelta(minutes=m)` -/
def addMinutes (dt : PyDateTime) (m : Nat) : PyDateTime :=
  let tm := dt.minute + m
  let th := dt.hour + tm / 60
  { dt with days := dt.days + th / 24, hour := th % 24, minute := tm % 60 }

/-- `dt.replace(hour=h, minute=m, second=0, microsecond=0)` -/
def replaceHM (dt : PyDateTime) (h m : Nat) : PyDateTime :=
  { dt with hour := h, minute := m, second := 0, micro := 0 }

/-- `(\d{1,2}):(\d{2})\s*(am|pm)?` — three groups; the period group sits
inside the `?`. -/
def reTime0 : RE := cat [RE.group 0 dig12, chr ':', RE.group 1 dig2, spS,
  RE.opt (RE.group 2 (alts [lit "am", lit "pm"])) true]

/-- `(\d{1,2})\s*(am|pm)` — two groups; the period is group 2 (our 1). -/
def reTime1 : RE := cat [RE.group 0 dig12, spS, RE.group 1 (alts [lit "am", lit "pm"])]

/-- `in (\d+)\s*(hour|minute|day)` -/
def reIn : RE := cat [lit "in ", RE.group 0 digP, spS,
  RE.group 1 (alts [lit "hour", lit "minute", lit "day"])]

/-- `_extract_time`, including its group arithmetic exactly as written:
`hour` from group 1, `minute` from group 2 when it is a digit string
(else `0`), and a period only read from group 3 — which exists only for
the colon pattern, so a bare-hour `am`/`pm` (whose period is group 2)
never reaches the 12-hour fold.  (Both patterns' group 2 is mandatory,
so the `None.isdigit()` path of the source is unreachable; the model
returns minute 0 there.) -/
def extractTime (text : List Char) : Option (Nat × Nat) :=
  let tryPat := fun (p : RE × Nat) =>
    match msearch reFuel p.1 text with
    | Option.some caps =>
      let hour := ((capLookup caps 0).map digitsToNat).getD 0
      let minute := if p.2 > 1 then
          (match capLookup caps 1 with
           | Option.some g => if g ≠ [] ∧ g.all pyDigit then digitsToNat g else 0
           | Option.none => 0)
        else 0
      let period := if p.2 > 2 then capLookup caps 2 else Option.none
      let hour := match period with
        | Option.some g =>
          if g = "pm".data ∧ hour < 12 then hour + 12
          else if g = "am".data ∧ hour = 12 then 0
          else hour
        | Option.none => hour
      Option.some (hour, minute)
    | Option.none => Option.none
  match tryPat (reTime0, 3) with
  | Option.some r => Option.some r
  | Option.none => tryPat (reTime1, 2)

/-- `time_str.replace('Z', '+00:00')` -/
def replaceZ (s : List Char) : List Char :=
  s.foldr (fun c acc => if c = 'Z' then "+00:00".data ++ acc else c :: acc) []

/-- `_parse_time`.  `iso` stands for `datetime.fromisoformat`: it is a
parameter because the claims only exercise inputs it rejects (its
`except` arm), which a hypothesis `iso ... = none` records. -/
def parseTime (iso : List Char → Option PyDateTime) (now : PyDateTime)
    (timeStr : String) : PyDateTime :=
  let t := pyStrip (pyLower timeStr.data)
  match iso (replaceZ t) with
  | Option.some dt => dt
  | Option.none =>
    if listSub "tomorrow".data t then
      let base := addDays now 1
      match extractTime t with
      | Option.some (h, m) => replaceHM base h m
      | Option.none => replaceHM base 9 0
    else if listSub "today".data t then
      match extractTime t with
      | Option.some (h, m) => replaceHM now h m
      | Option.none => now
    else if listSub "in".data t then
      match msearch reFuel reIn t with
      | Option.some caps =>
        let amount := ((capLookup caps 0).map digitsToNat).getD 0
        let unit := (capLookup caps 1).getD []
        if unit = "hour".data then addHours now amount
        else if unit = "minute".data then addMinutes now amount
        else if unit = "day".data then addDays now (amount : Int)
        else addHours now 1
      | Option.none => addHours now 1
    else addHours now 1

example : extractTime "tomorrow at 2pm".data = Option.some (2, 0) := by rfl
example : extractTime "today at 2:30pm".data = Option.some (14, 30) := by rfl
example : extractTime "1pm".data = Option.some (1, 0) := by rfl
example : extractTime "12am".data = Option.some (12, 0) := by rfl

/-! ## Theorems -/

/-- A command whose `agent` is a nonempty string passes the
`if not command.agent:` guard. -/
lemma agentFalsy_of_some {cmd : VoiceCommand} {a : String}
    (ha : cmd.agent = Option.some a) (hne : a ≠ "") : agentFalsy cmd = false := by
  unfold agentFalsy
  rw [ha]
  simp [hne]

/-- C1: for every VoiceCommand with an agent set, whenever dispatching
(action, parameters) to the tool backend raises any error,
`execute_command` catches it and returns a CommandResponse with
`success = false`, message `"Sorry, I encountered an error: "` followed
by the error text, and `speak = true`; the exception never propagates. -/
theorem executeCommand_wraps_dispatch_error
    (dispatch : Option String → List (String × Val) → Except String Val)
    (st : RouterState) (cmd : VoiceCommand) (a e : String)
    (ha : cmd.agent = Option.some a) (hne : a ≠ "")
    (he : dispatch cmd.action (cmd.parameters.getD []) = .error e) :
    executeCommand dispatch st cmd =
      ({ success := false, message := Val.str ("Sorry, I encountered an error: " ++ e),
         data := Option.none, speak := true }, st) := by
  unfold executeCommand
  rw [agentFalsy_of_some ha hne, he]
  simp [errorResponse]

/-- Witness for C1: a concrete command and a dispatcher that raises. -/
theorem executeCommand_wraps_dispatch_error_witness :
    executeCommand (fun _ _ => .error "boom") initState
      { raw_text := "buy x".data, intent := .shopping, confidence := patternConfidence,
        entities := Val.dict [], agent := Option.some "ecommerce",
        action := Option.some "product_search", parameters := Option.some [] } =
      ({ success := false, message := Val.str "Sorry, I encountered an error: boom",
         data := Option.none, speak := true }, initState) :=
  executeCommand_wraps_dispatch_error _ _ _ "ecommerce" "boom" rfl (by decide) rfl

/-- C2: with the repository's `MCPServer` as the dispatcher, every
command with an agent set comes back `success = false`: the router calls
`execute_tool`, which `MCPServer` does not define, so the call raises
`AttributeError`, the error-wrap branch fires, and the success branch
and history append are unreachable (the state comes back unchanged). -/
theorem executeCommand_repo_server_always_fails
    (st : RouterState) (cmd : VoiceCommand) (a : String)
    (ha : cmd.agent = Option.some a) (hne : a ≠ "") :
    executeCommand mcpServerExecuteTool st cmd =
      ({ success := false,
         message := Val.str ("Sorry, I encountered an error: " ++
           "'MCPServer' object has no attribute 'execute_tool'"),
         data := Option.none, speak := true }, st) := by
  unfold executeCommand
  rw [agentFalsy_of_some ha hne]
  simp [show ∀ act ps, mcpServerExecuteTool act ps =
    .error "'MCPServer' object has no attribute 'execute_tool'" from fun _ _ => rfl,
    errorResponse]

/-- Witness for C2: the parsed laptop command against the in-repo server. -/
theorem executeCommand_repo_server_always_fails_witness :
    executeCommand mcpServerExecuteTool initState
      { raw_text := "find me a laptop under 1000 dollars".data, intent := .shopping,
        confidence := patternConfidence, entities := Val.dict [("group_0", Val.str "m")],
        agent := Option.some "ecommerce", action := Option.some "product_search",
        parameters := Option.some [("query", Val.str "m"), ("max_price", Val.none)] } =
      ({ success := false,
         message := Val.str ("Sorry, I encountered an error: " ++
           "'MCPServer' object has no attribute 'execute_tool'"),
         data := Option.none, speak := true }, initState) :=
  executeCommand_repo_server_always_fails _ _ "ecommerce" rfl (by decide)

/-- C6: a VoiceCommand without an agent is answered by the fixed
rephrase message, `success = false`, `speak = true`, with no dispatcher
call (the result does not depend on `dispatch`) and no state change. -/
theorem executeCommand_no_agent
    (dispatch : Option String → List (String × Val) → Except String Val)
    (st : RouterState) (cmd : VoiceCommand) (h : cmd.agent = Option.none) :
    executeCommand dispatch st cmd =
      ({ success := false,
         message := Val.str "I'm not sure how to handle that command. Can you rephrase?",
         data := Option.none, speak := true }, st) := by
  unfold executeCommand
  have hf : agentFalsy cmd = true := by unfold agentFalsy; rw [h]
  rw [hf]
  simp [rephraseResponse]

/-- Witness for C6: a concrete unknown-intent command with no agent. -/
theorem executeCommand_no_agent_witness :
    executeCommand (fun _ _ => .ok Val.none) initState
      { raw_text := "zzz".data, intent := .unknown, confidence := 0,
        entities := Val.dict [] } =
      ({ success := false,
         message := Val.str "I'm not sure how to handle that command. Can you rephrase?",
         data := Option.none, speak := true }, initState) :=
  executeCommand_no_agent _ _ _ rfl

/-- `parse_command` hands the state back unchanged on every success
path. -/
lemma parseCommand_state_eq (ai : Option AIOutcome) (st : RouterState) (text : String)
    (useAI : Bool) (c : VoiceCommand) (st2 : RouterState)
    (h : parseCommand ai st text useAI = .ok (c, st2)) : st2 = st := by
  unfold parseCommand at h
  cases hx : parseCommandAux ai st text useAI with
  | error e => rw [hx] at h; exact absurd h (by simp [Except.map])
  | ok c2 =>
    rw [hx] at h
    simp only [Except.map, Except.ok.injEq, Prod.mk.injEq] at h
    exact h.2.symm

/-- C9: with the AI fallback disabled (no AI service attached),
`parse_command` from the initial state is idempotent: it leaves the
state — pattern table included — unchanged, and the second call returns
the very same parsed command, so intent, confidence and entities
coincide. -/
theorem parseCommand_idempotent (text : String) (useAI : Bool)
    (c1 : VoiceCommand) (st1 : RouterState)
    (h : parseCommand Option.none initState text useAI = .ok (c1, st1)) :
    st1 = initState ∧ parseCommand Option.none st1 text useAI = .ok (c1, st1) := by
  have he := parseCommand_state_eq _ _ _ _ _ _ h
  subst he
  exact ⟨rfl, h⟩

/-- Witness for C9: the unmatched text `"hello"` parses to the unknown
intent with confidence 0, twice. -/
theorem parseCommand_idempotent_witness :
    initState = initState ∧
      parseCommand Option.none initState "hello" false =
        .ok ({ raw_text := "hello".data, intent := .unknown, confidence := 0,
               entities := Val.dict [] }, initState) :=
  parseCommand_idempotent "hello" false _ _ (by rfl)

/-- C10: `parse_command` never mutates the history or the context, and
`execute_command` appends exactly one record (raw text, intent value,
dispatch result) on its success path while every failure path (agent
absent or any dispatch/format error) leaves the state untouched. -/
theorem router_frame_effects :
    (∀ ai st text useAI c st2,
        parseCommand ai st text useAI = .ok (c, st2) →
        st2.commandHistory = st.commandHistory ∧ st2.context = st.context) ∧
    (∀ dispatch st cmd,
        ((executeCommand dispatch st cmd).1.success = false →
            (executeCommand dispatch st cmd).2 = st) ∧
        ((executeCommand dispatch st cmd).1.success = true →
            ∃ r, dispatch cmd.action (cmd.parameters.getD []) = .ok r ∧
              (executeCommand dispatch st cmd).2 =
                { st with commandHistory := st.commandHistory ++
                    [{ command := cmd.raw_text, intent := cmd.intent.value,
                       result := r }] })) := by
  constructor
  · intro ai st text useAI c st2 h
    rw [parseCommand_state_eq ai st text useAI c st2 h]
    exact ⟨rfl, rfl⟩
  · intro dispatch st cmd
    unfold executeCommand
    split
    · exact ⟨fun _ => rfl, fun hs => absurd hs (by simp [rephraseResponse])⟩
    · split
      next e he => exact ⟨fun _ => rfl, fun hs => absurd hs (by simp [errorResponse])⟩
      next r hr =>
        split
        next e2 he2 => exact ⟨fun _ => rfl, fun hs => absurd hs (by simp [errorResponse])⟩
        next msg hm => exact ⟨fun hs => absurd hs (by simp), fun _ => ⟨r, hr, rfl⟩⟩

/-- Witness for C10: a succeeding dispatch appends one history record. -/
theorem router_frame_effects_witness :
    (executeCommand (fun _ _ => .ok (Val.dict [("message", Val.str "done")])) initState
        { raw_text := "hi".data, intent := .unknown, confidence := 0,
          entities := Val.dict [], agent := Option.some "x" }).2 =
      { initState with commandHistory := initState.commandHistory ++
          [{ command := "hi".data, intent := CommandIntent.unknown.value,
             result := Val.dict [("message", Val.str "done")] }] } := by
  obtain ⟨r, hr, hst⟩ :=
    (router_frame_effects.2 (fun _ _ => .ok (Val.dict [("message", Val.str "done")]))
      initState
      { raw_text := "hi".data, intent := .unknown, confidence := 0,
        entities := Val.dict [], agent := Option.some "x" }).2 (by rfl)
  have hrr : r = Val.dict [("message", Val.str "done")] := by
    exact (Except.ok.inj hr).symm
  rw [hrr] at hst
  exact hst

/-- Counterexample for C5: a collaborator reply that is well-formed JSON
with a confidence above the pattern score but an intent value outside
the enumeration makes `CommandIntent(ai_result['intent'])` raise
`ValueError`, and nothing in `parse_command` catches it. -/
theorem parseCommand_alien_intent_raises :
    parseCommand (Option.some (AIOutcome.value (Val.dict
        [("intent", Val.str "pizza"), ("confidence", Val.int 1)])))
      initState "zzz" true = .error "ValueError: not a valid CommandIntent" := by rfl

/-- C5 (amended): when the collaborator call or the JSON parsing raises,
`_ai_parse` swallows the failure and `parse_command` behaves exactly as
with the fallback disabled — the pattern-match intent, entities and
confidence stand. -/
theorem parseCommand_collaborator_failure_ignored (msg : String) (st : RouterState)
    (text : String) :
    parseCommand (Option.some (AIOutcome.raises msg)) st text true =
      parseCommand Option.none st text false := by
  by_cases hc :
    (patternMatch st.commandPatterns (pyLower (pyStrip text.data))).2.2 < aiThreshold
  · simp [parseCommand, parseCommandAux, aiParse, hc]
  · simp [parseCommand, parseCommandAux, aiParse, hc]

/-- Evaluation of the C4 bug: the lazy `(.+?)` of the first shopping
pattern, followed by an entirely optional price tail, captures the
single letter `m` of `"find me ..."` and never reaches `1000`, so the
parsed parameters are `query = "m"` and `max_price = None`. -/
theorem parseCommand_laptop_eval :
    parseCommand Option.none initState "Find me a laptop under 1000 dollars" false =
      .ok ({ raw_text := "find me a laptop under 1000 dollars".data,
             intent := .shopping, confidence := patternConfidence,
             entities := Val.dict [("group_0", Val.str "m")],
             agent := Option.some "ecommerce", action := Option.some "product_search",
             parameters := Option.some [("query", Val.str "m"), ("max_price", Val.none)] },
           initState) := by rfl

/-- Evaluation of the C3 bug: for any `fromisoformat` behaviour that
rejects the string, `_parse_time "tomorrow at 2pm"` lands on tomorrow at
hour 2, not hour 14 — the bare-hour pattern's `pm` sits in group 2, but
the code only reads a period from group 3. -/
theorem parseTime_tomorrow_2pm (iso : List Char → Option PyDateTime) (now : PyDateTime)
    (h : iso "tomorrow at 2pm".data = Option.none) :
    parseTime iso now "tomorrow at 2pm" = replaceHM (addDays now 1) 2 0 := by
  have e : parseTime iso now "tomorrow at 2pm" =
      (match iso "tomorrow at 2pm".data with
       | Option.some dt => dt
       | Option.none => replaceHM (addDays now 1) 2 0) := rfl
  rw [e, h]

/-- Witness for the C3 evaluation at a concrete epoch. -/
theorem parseTime_tomorrow_2pm_witness :
    parseTime (fun _ => Option.none)
      { days := 0, hour := 0, minute := 0, second := 0, micro := 0 } "tomorrow at 2pm" =
      { days := 1, hour := 2, minute := 0, second := 0, micro := 0 } :=
  (parseTime_tomorrow_2pm (fun _ => Option.none) _ rfl).trans (by decide)

/-- `pure` into `Except` is `Except.ok`. -/
@[simp] lemma pure_eq_ok {α : Type} (a : α) : (pure a : Except String α) = Except.ok a := rfl

/-- `Except` bind on a success reduces to the continuation. -/
@[simp] lemma ok_bind {α β : Type} (a : α) (f : α → Except String β) :
    (Except.ok a >>= f) = f a := rfl

/-- `Except` bind on an error short-circuits. -/
@[simp] lemma error_bind {α β : Type} (e : String) (f : α → Except String β) :
    ((Except.error e : Except String α) >>= f) = Except.error e := rfl

/-- `Except` map on a success applies the function. -/
@[simp] lemma ok_map {α β : Type} (a : α) (f : α → β) :
    (f <$> (Except.ok a : Except String α)) = Except.ok (f a) := rfl

/-- `Except` map on an error short-circuits. -/
@[simp] lemma error_map {α β : Type} (e : String) (f : α → β) :
    (f <$> (Except.error e : Except String α)) = Except.error e := rfl

/-- `List.any` over key equality agrees with `dictGet` being set. -/
lemma any_eq_isSome_dictGet : ∀ (ents : List (String × Val)) (k : String),
    (ents.any (fun p => p.1 = k)) = (dictGet ents k).isSome
  | [], _ => rfl
  | p :: rest, k => by
    by_cases hp : p.1 = k <;>
      simp [dictGet, List.find?, List.any_cons, hp, any_eq_isSome_dictGet rest k]

/-- Counterexample for C7: `"show my cart"` matches only the group-less
cart-view pattern, so the mapping step sets the agent but assigns no
action at all. -/
theorem parseCommand_show_my_cart_actionless :
    (parseCommand Option.none initState "show my cart" false).map
      (fun p => (p.1.intent, p.1.agent, p.1.action)) =
      .ok (CommandIntent.shopping, Option.some "ecommerce", Option.none) := by rfl

/-- A freshly parsed shopping command, before the mapping step fills
agent, action and parameters. -/
def shopCmd (raw : List Char) (conf : ℚ) (ents : List (String × Val)) : VoiceCommand :=
  { raw_text := raw, intent := .shopping, confidence := conf, entities := Val.dict ents }

/-- C7 (amended): on a freshly parsed shopping command the mapping step
always sets `agent = "ecommerce"`; when a `group_0` entity was captured
the action follows the substring heuristics ("compare"/"price" →
`price_compare`; "cart" with "show"/"view" → `view_cart`, otherwise
`add_to_cart`; else `product_search`, whose parameters always carry a
`max_price` key — `None` when no numeric entity was captured, the parsed
number when one was); when no `group_0` entity exists the command leaves
the mapping step with no action assigned. -/
theorem mapToAgent_shopping (raw : List Char) (conf : ℚ) (ents : List (String × Val)) :
    (dictGet ents "group_0" = Option.none →
        mapToAgent (shopCmd raw conf ents) =
          .ok { shopCmd raw conf ents with agent := Option.some "ecommerce" }) ∧
    (∀ product, dictGet ents "group_0" = Option.some product →
      ((listSub "compare".data raw || listSub "price".data raw) = true →
          mapToAgent (shopCmd raw conf ents) =
            .ok { shopCmd raw conf ents with
                  agent := Option.some "ecommerce"
                  action := Option.some "price_compare"
                  parameters := Option.some [("product_name", product)] }) ∧
      ((listSub "compare".data raw || listSub "price".data raw) = false →
        listSub "cart".data raw = true →
          mapToAgent (shopCmd raw conf ents) =
            .ok { shopCmd raw conf ents with
                  agent := Option.some "ecommerce"
                  action := Option.some (if (listSub "show".data raw || listSub "view".data raw)
                    then "view_cart" else "add_to_cart")
                  parameters := Option.some [("product", product)] }) ∧
      ((listSub "compare".data raw || listSub "price".data raw) = false →
        listSub "cart".data raw = false →
        ((dictGet ents "group_1").getD Val.none).truthy = false →
          mapToAgent (shopCmd raw conf ents) =
            .ok { shopCmd raw conf ents with
                  agent := Option.some "ecommerce"
                  action := Option.some "product_search"
                  parameters := Option.some [("query", product), ("max_price", Val.none)] }) ∧
      (∀ s, (listSub "compare".data raw || listSub "price".data raw) = false →
        listSub "cart".data raw = false →
        dictGet ents "group_1" = Option.some (Val.str s) →
        s.data ≠ [] → s.data.all pyDigit = true →
          mapToAgent (shopCmd raw conf ents) =
            .ok { shopCmd raw conf ents with
                  agent := Option.some "ecommerce"
                  action := Option.some "product_search"
                  parameters := Option.some [("query", product),
                    ("max_price", Val.float ((digitsToNat s.data : Nat) : ℚ))] })) := by
  refine ⟨?_, fun product hp => ⟨?_, ?_, ?_, ?_⟩⟩
  · intro h0
    simp [shopCmd, mapToAgent, Val.hasKey, any_eq_isSome_dictGet, h0]
  · intro hcp
    simp [shopCmd, mapToAgent, Val.hasKey, any_eq_isSome_dictGet, hp, Val.item, Val.get, hcp]
  · intro hcp hcart
    simp [shopCmd, mapToAgent, Val.hasKey, any_eq_isSome_dictGet, hp, Val.item, Val.get, hcp,
      hcart]
  · intro hcp hcart hfalsy
    simp [shopCmd, mapToAgent, Val.hasKey, any_eq_isSome_dictGet, hp, Val.item, Val.get, hcp,
      hcart, hfalsy]
  · intro s hcp hcart hg1 hne hdig
    have hs : s ≠ "" := by
      intro h
      apply hne
      rw [h]
    simp [shopCmd, mapToAgent, Val.hasKey, any_eq_isSome_dictGet, hp, Val.item, Val.get, hcp,
      hcart, hg1, Val.truthy, hs, hne, pyFloat]
    rw [if_pos (List.all_eq_true.mp hdig)]
    rfl

/-- Witness for C7 (amended): the actionless case at `"show my cart"`. -/
theorem mapToAgent_shopping_witness :
    mapToAgent (shopCmd "show my cart".data patternConfidence []) =
      .ok { shopCmd "show my cart".data patternConfidence [] with
            agent := Option.some "ecommerce" } :=
  (mapToAgent_shopping "show my cart".data patternConfidence []).1 rfl

/-- Counterexample for C8: a `product_search` result whose first product
lacks `name` makes `_format_response` raise `KeyError` instead of
substituting an empty string or a default number. -/
theorem formatResponse_missing_field_raises :
    formatResponse
      { raw_text := [], intent := .shopping, confidence := 0, entities := Val.dict [],
        agent := Option.some "ecommerce", action := Option.some "product_search" }
      (Val.dict [("products", Val.list [Val.dict [("price", Val.int 999)]])]) =
      .error "KeyError: name" := by rfl

/-- Is the value a dict carrying the key? -/
def hasStrKey (k : String) (v : Val) : Bool :=
  match v with
  | Val.dict d => (dictGet d k).isSome
  | _ => false

/-- A result field that, when present, must be a list whose items all
satisfy `itemOK`. -/
def listFieldOK (d : List (String × Val)) (k : String) (itemOK : Val → Bool) : Bool :=
  match dictGet d k with
  | Option.none => true
  | Option.some (Val.list xs) => xs.all itemOK
  | Option.some _ => false

/-- The shape `_format_response` needs to avoid raising: the result is a
dict whose listed items carry the bracket-accessed fields (product
`name`/`price`, comparison and `best_deal` `total_price`/`platform`,
vocabulary `dutch`, event `summary`/`start`), and whose `event` value,
when present, is a dict. -/
def wellFormedResult (v : Val) : Bool :=
  match v with
  | Val.dict d =>
      listFieldOK d "products" (fun p => hasStrKey "name" p && hasStrKey "price" p) &&
      listFieldOK d "comparisons"
        (fun p => hasStrKey "total_price" p && hasStrKey "platform" p) &&
      (match dictGet d "best_deal" with
       | Option.none => true
       | Option.some b => hasStrKey "total_price" b && hasStrKey "platform" b) &&
      listFieldOK d "items" (fun _ => true) &&
      listFieldOK d "results" (fun p => hasStrKey "dutch" p) &&
      listFieldOK d "events" (fun p => hasStrKey "summary" p && hasStrKey "start" p) &&
      (match dictGet d "event" with
       | Option.none => true
       | Option.some (Val.dict _) => true
       | Option.some _ => false)
  | _ => false

/-- A set key with a dict value yields that dict from `Val.item`. -/
lemma item_of_hasStrKey {p : Val} {k : String} (h : hasStrKey k p = true) :
    ∃ w, p.item k = Except.ok w := by
  cases p with
  | dict xs =>
    simp only [hasStrKey] at h
    cases hf : dictGet xs k with
    | none => rw [hf] at h; exact absurd h (by simp)
    | some w => exact ⟨w, by simp [Val.item, hf]⟩
  | none => exact absurd h (by simp [hasStrKey])
  | bool b => exact absurd h (by simp [hasStrKey])
  | int n => exact absurd h (by simp [hasStrKey])
  | float q => exact absurd h (by simp [hasStrKey])
  | str s => exact absurd h (by simp [hasStrKey])
  | list xs => exact absurd h (by simp [hasStrKey])

/-- A well-formed list field is either defaulted to `[]` or a list of
items that all pass the check. -/
lemma getfield_cases (d : List (String × Val)) (k : String) (itemOK : Val → Bool)
    (h : listFieldOK d k itemOK = true) :
    (dictGet d k).getD (Val.list []) = Val.list [] ∨
    ∃ xs, (dictGet d k).getD (Val.list []) = Val.list xs ∧ xs.all itemOK = true := by
  unfold listFieldOK at h
  cases hf : dictGet d k with
  | none => left; rfl
  | some pv =>
    rw [hf] at h
    cases pv with
    | list xs => exact Or.inr ⟨xs, rfl, h⟩
    | none => exact absurd h (by simp)
    | bool b => exact absurd h (by simp)
    | int n => exact absurd h (by simp)
    | float q => exact absurd h (by simp)
    | str s => exact absurd h (by simp)
    | dict xs => exact absurd h (by simp)

/-- The event comprehension of `calendar_list_events` succeeds when every
event carries `summary` and `start`. -/
lemma eventParts_ok (xs : List Val)
    (hx : xs.all (fun p => hasStrKey "summary" p && hasStrKey "start" p) = true) :
    ∃ parts, eventParts xs = Except.ok parts := by
  induction xs with
  | nil => exact ⟨[], rfl⟩
  | cons e rest ih =>
    rw [List.all_cons, Bool.and_eq_true, Bool.and_eq_true] at hx
    obtain ⟨⟨hs1, hs2⟩, hrest⟩ := hx
    obtain ⟨w1, hw1⟩ := item_of_hasStrKey hs1
    obtain ⟨w2, hw2⟩ := item_of_hasStrKey hs2
    obtain ⟨parts, hparts⟩ := ih hrest
    exact ⟨(w1.pyStr ++ " at " ++ w2.pyStr) :: parts,
      by simp [eventParts, hw1, hw2, hparts]⟩

/-- `all` restricts to a prefix. -/
lemma all_take {xs : List Val} {p : Val → Bool} (h : xs.all p = true) (n : Nat) :
    (xs.take n).all p = true :=
  List.all_eq_true.mpr (fun x hx => List.all_eq_true.mp h x (List.take_subset n xs hx))

/-- A value with a set string key is a dict. -/
lemma dict_of_hasStrKey {p : Val} {k : String} (h : hasStrKey k p = true) :
    ∃ xs, p = Val.dict xs := by
  cases p with
  | dict xs => exact ⟨xs, rfl⟩
  | none => exact absurd h (by simp [hasStrKey])
  | bool b => exact absurd h (by simp [hasStrKey])
  | int n => exact absurd h (by simp [hasStrKey])
  | float q => exact absurd h (by simp [hasStrKey])
  | str s => exact absurd h (by simp [hasStrKey])
  | list xs => exact absurd h (by simp [hasStrKey])

/-- C8 (amended): `_format_response` returns without raising for every
(intent, action) pair — uncovered pairs fall back to `result.message`
when present and to `"Command executed successfully."` otherwise —
provided the result is well shaped; a listed item missing one of the
bracket-accessed fields raises `KeyError` instead of substituting a
default (see the counterexample). -/
theorem formatResponse_total_on_wellformed (cmd : VoiceCommand) (v : Val)
    (h : wellFormedResult v = true) : ∃ s, formatResponse cmd v = Except.ok s := by
  cases v with
  | none => exact absurd h (by simp [wellFormedResult])
  | bool b => exact absurd h (by simp [wellFormedResult])
  | int n => exact absurd h (by simp [wellFormedResult])
  | float q => exact absurd h (by simp [wellFormedResult])
  | str s => exact absurd h (by simp [wellFormedResult])
  | list xs => exact absurd h (by simp [wellFormedResult])
  | dict d =>
    simp only [wellFormedResult, Bool.and_eq_true] at h
    obtain ⟨⟨⟨⟨⟨⟨h1, h2⟩, h3⟩, h4⟩, h5⟩, h6⟩, h7⟩ := h
    obtain ⟨raw, intent, conf, ents, agent, action, params⟩ := cmd
    cases intent with
    | shopping =>
      by_cases ha1 : action = Option.some "product_search"
      · rcases getfield_cases d "products" _ h1 with hemp | ⟨xs, hxs, hall⟩
        · exact ⟨_, by simp [formatResponse, ha1, Val.get, hemp, Val.truthy]; try rfl⟩
        · cases xs with
          | nil => exact ⟨_, by simp [formatResponse, ha1, Val.get, hxs, Val.truthy]; try rfl⟩
          | cons p rest =>
            have hp2 := List.all_eq_true.mp hall p (List.mem_cons_self p rest)
            rw [Bool.and_eq_true] at hp2
            obtain ⟨w1, hw1⟩ := item_of_hasStrKey hp2.1
            obtain ⟨w2, hw2⟩ := item_of_hasStrKey hp2.2
            exact ⟨_, by simp [formatResponse, ha1, Val.get, hxs, Val.truthy, Val.index, hw1, hw2]; try rfl⟩
      · by_cases ha2 : action = Option.some "price_compare"
        · rcases getfield_cases d "comparisons" _ h2 with hemp | ⟨xs, hxs, hall⟩
          · exact ⟨_, by simp [formatResponse, ha1, ha2, Val.get, hemp, Val.truthy]; try rfl⟩
          · cases xs with
            | nil => exact ⟨_, by simp [formatResponse, ha1, ha2, Val.get, hxs, Val.truthy]; try rfl⟩
            | cons c rest =>
              have hbk : hasStrKey "total_price" ((dictGet d "best_deal").getD c) = true ∧
                  hasStrKey "platform" ((dictGet d "best_deal").getD c) = true := by
                cases hb : dictGet d "best_deal" with
                | none =>
                  have hc := List.all_eq_true.mp hall c (List.mem_cons_self c rest)
                  rw [Bool.and_eq_true] at hc
                  simpa using hc
                | some b =>
                  rw [hb] at h3
                  simp only [Bool.and_eq_true] at h3
                  simpa using h3
              obtain ⟨w1, hw1⟩ := item_of_hasStrKey hbk.1
              obtain ⟨w2, hw2⟩ := item_of_hasStrKey hbk.2
              exact ⟨_, by simp [formatResponse, ha1, ha2, Val.get, hxs, Val.truthy, Val.index, hw1, hw2]; try rfl⟩
        · by_cases ha3 : action = Option.some "view_cart"
          · rcases getfield_cases d "items" _ h4 with hemp | ⟨xs, hxs, hall⟩
            · exact ⟨_, by simp [formatResponse, ha1, ha2, ha3, Val.get, hemp, Val.truthy]; try rfl⟩
            · cases xs with
              | nil => exact ⟨_, by simp [formatResponse, ha1, ha2, ha3, Val.get, hxs, Val.truthy]; try rfl⟩
              | cons i rest => exact ⟨_, by simp [formatResponse, ha1, ha2, ha3, Val.get, hxs, Val.truthy, pyLen]; try rfl⟩
          · exact ⟨_, by simp [formatResponse, ha1, ha2, ha3, formatDefault, Val.get]; try rfl⟩
    | dutch_learning =>
      by_cases ha : action = Option.some "dutch_vocabulary_search"
      · rcases getfield_cases d "results" _ h5 with hemp | ⟨xs, hxs, hall⟩
        · exact ⟨_, by simp [formatResponse, ha, Val.get, hemp, Val.truthy]; try rfl⟩
        · cases xs with
          | nil => exact ⟨_, by simp [formatResponse, ha, Val.get, hxs, Val.truthy]; try rfl⟩
          | cons w rest =>
            have hw := List.all_eq_true.mp hall w (List.mem_cons_self w rest)
            have hwk : hasStrKey "dutch" w = true := by simpa using hw
            obtain ⟨wd, rfl⟩ := dict_of_hasStrKey hwk
            obtain ⟨w1, hw1⟩ := item_of_hasStrKey hwk
            exact ⟨_, by simp [formatResponse, ha, Val.get, hxs, Val.truthy, Val.index, hw1]; try rfl⟩
      · exact ⟨_, by simp [formatResponse, ha, formatDefault, Val.get]; try rfl⟩
    | information =>
      by_cases ha : action = Option.some "calendar_list_events"
      · rcases getfield_cases d "events" _ h6 with hemp | ⟨xs, hxs, hall⟩
        · exact ⟨_, by simp [formatResponse, ha, Val.get, hemp, Val.truthy]; try rfl⟩
        · cases xs with
          | nil => exact ⟨_, by simp [formatResponse, ha, Val.get, hxs, Val.truthy]; try rfl⟩
          | cons e rest =>
            obtain ⟨parts, hparts⟩ := eventParts_ok ((e :: rest).take 3) (all_take hall 3)
            simp only [List.take_succ_cons] at hparts
            by_cases hn : 3 < rest.length + 1
            · exact ⟨_, by simp [formatResponse, ha, Val.get, hxs, Val.truthy, pySliceTo, hparts, pyLen, hn]; try rfl⟩
            · exact ⟨_, by simp [formatResponse, ha, Val.get, hxs, Val.truthy, pySliceTo, hparts, pyLen, hn]; try rfl⟩
      · by_cases hb2 : action = Option.some "calendar_create_event"
        · by_cases hsucc : ((dictGet d "success").getD Val.none).truthy = true
          · cases hev : dictGet d "event" with
            | none => exact ⟨_, by simp [formatResponse, ha, hb2, Val.get, hsucc, hev]; try rfl⟩
            | some ev =>
              rw [hev] at h7
              have hevd : ∃ ed, ev = Val.dict ed := by
                cases ev with
                | dict ed => exact ⟨ed, rfl⟩
                | none => exact absurd h7 (by simp)
                | bool b => exact absurd h7 (by simp)
                | int n => exact absurd h7 (by simp)
                | float q => exact absurd h7 (by simp)
                | str s => exact absurd h7 (by simp)
                | list xs => exact absurd h7 (by simp)
              obtain ⟨ed, rfl⟩ := hevd
              exact ⟨_, by simp [formatResponse, ha, hb2, Val.get, hsucc, hev]; try rfl⟩
          · exact ⟨_, by simp [formatResponse, ha, hb2, Val.get, hsucc]; try rfl⟩
        · exact ⟨_, by simp [formatResponse, ha, hb2, formatDefault, Val.get]; try rfl⟩
    | camera =>
      by_cases hsucc : ((dictGet d "success").getD Val.none).truthy = true
      · exact ⟨_, by simp [formatResponse, Val.get, hsucc]; try rfl⟩
      · exact ⟨_, by simp [formatResponse, Val.get, hsucc]; try rfl⟩
    | home_automation => exact ⟨_, by simp [formatResponse, formatDefault, Val.get]; try rfl⟩
    | system_control => exact ⟨_, by simp [formatResponse, formatDefault, Val.get]; try rfl⟩
    | unknown => exact ⟨_, by simp [formatResponse, formatDefault, Val.get]; try rfl⟩

/-- Witness for C8 (amended): a complete product-search result formats
without raising. -/
theorem formatResponse_total_on_wellformed_witness :
    ∃ s, formatResponse
      { raw_text := [], intent := .shopping, confidence := 0, entities := Val.dict [],
        agent := Option.some "ecommerce", action := Option.some "product_search" }
      (Val.dict [("products",
        Val.list [Val.dict [("name", Val.str "kb"), ("price", Val.int 49)]])]) =
      Except.ok s :=
  formatResponse_total_on_wellformed _ _ (by rfl)

end SpeakDutch

